import Mathlib

/-!
# Verification of the homelab-monitor finance setup scripts

Shallow embedding of the two setup scripts of the repository:

* `src/agents/finance/plaid_setup.py` — a local Flask server driving the
  Plaid Link flow (`GET /`, `POST /create_link_token`, `POST /exchange_token`).
* `src/agents/finance/schwab_setup.py` — a command-line OAuth2 bootstrap
  script (`main`).

The process environment is modelled as a partial map from variable names to
string values.  The vendor SDK calls (Plaid API calls, the schwab-py login
flow) are modelled as oracles passed to the embedded functions: an oracle
returns `Except.ok` for a normal return and `Except.error msg` for a raised
exception whose `str()` is `msg`.  `sys.exit(message)` is modelled as an
explicit exit record with code 1, which is what CPython does when
`sys.exit` is given a string argument.  Console output is modelled as the
list of arguments of the executed `print` calls, in order.  The model
assumes the vendor libraries import successfully (the `ImportError` guards
at the top of both scripts are not modelled).
-/

/-- A process environment: `env name` is `some value` when the variable is
set and `none` otherwise (`os.environ.get(name, default)`). -/
def Env : Type := String → Option String

/-- `os.environ.get(name, default)`. -/
def envGetD (env : Env) (name default : String) : String :=
  (env name).getD default

/-- The characters stripped by Python `str.strip()` (ASCII whitespace). -/
def pyIsSpace (c : Char) : Bool :=
  c = ' ' || c = '\t' || c = '\n' || c = '\r' || c = '\x0b' || c = '\x0c'

/-- Python `str.strip()`: drop leading and trailing whitespace. -/
def pyStrip (s : String) : String :=
  String.mk (((s.data.dropWhile pyIsSpace).reverse.dropWhile pyIsSpace).reverse)

/-- Python `str.lower()` (ASCII case folding, which covers every value the
scripts compare against). -/
def pyLower (s : String) : String :=
  String.mk (s.data.map Char.toLower)

/-- Python `str.replace(' ', '_')`: with single-character arguments,
`str.replace` substitutes every occurrence of the character. -/
def pyReplaceSpaceUnderscore (s : String) : String :=
  String.mk (s.data.map (fun c => if c = ' ' then '_' else c))

/-- The result of `sys.exit(message)` with a string argument: CPython prints
the message to stderr and terminates with exit code 1. -/
structure ScriptExit where
  code : Nat
  msg : String
deriving Repr, DecidableEq

/-- `message` contains `name` as a substring (the error message "names" the
missing variable). -/
def mentions (message name : String) : Prop :=
  ∃ a b, message = a ++ (name ++ b)

/-! ## JSON values

Request bodies and response bodies are JSON objects.  `JsonVal` models the
Python values a parsed JSON body can hold that the handlers inspect:
strings, booleans, `null`/`None`, and objects (dicts with string keys).
Numbers and arrays are never inspected by the code; they are omitted from
the model, which only narrows the space of inputs quantified over. -/
inductive JsonVal where
  | str (s : String)
  | jbool (b : Bool)
  | null
  | obj (fields : List (String × JsonVal))
deriving Repr

/-- Python truthiness of a JSON value (`if institution else ...`):
`None`, `""`, `{}` and `False` are falsy. -/
def JsonVal.truthy : JsonVal → Bool
  | .str s => !s.isEmpty
  | .jbool b => b
  | .null => false
  | .obj l => !l.isEmpty

/-- `dict.get(key, default)` on a JSON object given as a field list. -/
def jget (fields : List (String × JsonVal)) (key : String)
    (default : JsonVal) : JsonVal :=
  (fields.lookup key).getD default

/-! ## Plaid link-flow server (`plaid_setup.py`) -/

/-- The Plaid environments named by `plaid.Environment` in the vendor SDK. -/
inductive PlaidEnvironment where
  | Sandbox
  | Development
  | Production
deriving Repr, DecidableEq

/-- The `env_map` dict of `plaid_setup.py`. -/
def env_map : List (String × PlaidEnvironment) :=
  [("sandbox", .Sandbox),
   ("development", .Development),
   ("production", .Production)]

/-- `plaid_env_name = os.environ.get("PLAID_ENV", "production").lower()`. -/
def plaid_env_name (env : Env) : String :=
  pyLower (envGetD env "PLAID_ENV" "production")

/-- `plaid_host = env_map.get(plaid_env_name, plaid.Environment.Production)`. -/
def plaid_host (env : Env) : PlaidEnvironment :=
  (env_map.lookup (plaid_env_name env)).getD .Production

/-- The configuration the module builds when the eager checks pass: it is
what `plaid.Configuration(host=..., api_key={...})` receives, and the
`plaid_client` used by the handlers is constructed from it. -/
structure PlaidConfig where
  client_id : String
  secret : String
  host : PlaidEnvironment
deriving Repr, DecidableEq

/-- Module-level initialisation of `plaid_setup.py` (lines 42-63): read and
strip `PLAID_CLIENT_ID` and `PLAID_SECRET`, `sys.exit` on the first empty
one, otherwise build the client configuration.  An `.error` result means
the process exits before any vendor client exists, so no handler ever runs
and no network call is ever made. -/
def plaid_module_init (env : Env) : Except ScriptExit PlaidConfig :=
  let client_id := pyStrip (envGetD env "PLAID_CLIENT_ID" "")
  let secret := pyStrip (envGetD env "PLAID_SECRET" "")
  if client_id = "" then
    .error ⟨1, "ERROR: PLAID_CLIENT_ID not set in .env"⟩
  else if secret = "" then
    .error ⟨1, "ERROR: PLAID_SECRET not set in .env"⟩
  else
    .ok ⟨client_id, secret, plaid_host env⟩

/-- The arguments of `LinkTokenCreateRequest(...)` in `create_link_token`. -/
structure LinkTokenCreateRequest where
  products : List String
  client_name : String
  country_codes : List String
  language : String
  client_user_id : String
deriving Repr, DecidableEq

/-- The outcome of a Flask handler that returned normally: HTTP status,
JSON body (`jsonify` of a dict), and the arguments of the `print` calls it
executed, in order. -/
structure HttpResult where
  status : Nat
  body : List (String × JsonVal)
  printed : List String

/-- The request `create_link_token` builds.  It is a function of the
incoming HTTP request only to reflect that the handler could read `request`
but does not: every field is a literal of the source. -/
def builtLinkRequest (_httpReq : List (String × JsonVal)) :
    LinkTokenCreateRequest :=
  { products := ["transactions", "investments"],
    client_name := "Homelab Finance Monitor",
    country_codes := ["US"],
    language := "en",
    client_user_id := "homelab-user" }

/-- Handler of `POST /create_link_token`.  `vendor` is the oracle for
`plaid_client.link_token_create`: `.ok tok` means the call returned a
response whose `link_token` is `tok`; `.error e` means it (or the request
construction) raised an exception with text `e`. -/
def create_link_token (httpReq : List (String × JsonVal))
    (vendor : LinkTokenCreateRequest → Except String String) : HttpResult :=
  match vendor (builtLinkRequest httpReq) with
  | .ok tok => { status := 200, body := [("link_token", .str tok)], printed := [] }
  | .error e => { status := 500, body := [("error", .str e)], printed := [] }

/-- Python `repr` of the modelled JSON values (as used by `str` on dicts).
String `repr` is approximated with single quotes without escaping, enough
for every value the development evaluates it at. -/
def pyRepr : JsonVal → String
  | .str s => "'" ++ s ++ "'"
  | .jbool true => "True"
  | .jbool false => "False"
  | .null => "None"
  | .obj l => "\x7b" ++ pyReprFields l ++ "\x7d"
where
  /-- `repr` of the fields of a dict, comma separated. -/
  pyReprFields : List (String × JsonVal) → String
  | [] => ""
  | [(k, v)] => "'" ++ k ++ "': " ++ pyRepr v
  | (k, v) :: rest => "'" ++ k ++ "': " ++ pyRepr v ++ ", " ++ pyReprFields rest

/-- Python `str` of the modelled JSON values (f-string interpolation). -/
def pyStr : JsonVal → String
  | .str s => s
  | v => pyRepr v

/-- The `str()` of the `AttributeError` raised by `value.lower()` on a
non-string value. -/
def lowerAttrError : JsonVal → String
  | .str _ => ""
  | .jbool _ => "'bool' object has no attribute 'lower'"
  | .null => "'NoneType' object has no attribute 'lower'"
  | .obj _ => "'dict' object has no attribute 'lower'"

/-- `institution.get("name", "unknown") if institution else "unknown"` of
`exchange_token`.  `none` models the `AttributeError` CPython raises when
`institution` is truthy but not a dict: that line is outside the `try`
block, so the exception escapes the handler. -/
def institutionNameOf (institution : JsonVal) : Option JsonVal :=
  if institution.truthy then
    match institution with
    | .obj l => some ((l.lookup "name").getD (.str "unknown"))
    | _ => none
  else
    some (.str "unknown")

/-- The `public_token` value `exchange_token` sends to the vendor exchange
call: `data.get("public_token", "")`, passed into
`ItemPublicTokenExchangeRequest(public_token=...)` unchanged. -/
def exchangeSentToken (data : List (String × JsonVal)) : JsonVal :=
  jget data "public_token" (.str "")

/-- A row of 60 `=` characters (`"=" * 60`). -/
def eqRow : String :=
  String.mk (List.replicate 60 '=')

/-- The eight `print` calls of the success branch of `exchange_token`, when
the institution name is the string `institution_name`. -/
def successPrints (institution_name access_token : String) : List String :=
  ["\n" ++ eqRow,
   "Institution: " ++ institution_name,
   "Access token: " ++ access_token,
   "",
   "Add to your .env file:",
   "  PLAID_ACCESS_TOKEN_<n>=" ++ access_token,
   "  PLAID_INSTITUTION_<n>=" ++ pyReplaceSpaceUnderscore (pyLower institution_name),
   eqRow ++ "\n"]

/-- The `print` calls that complete before `institution_name.lower()`
raises, when the institution name is the non-string value `nameVal`: the
seventh print's f-string fails while being evaluated. -/
def printsBeforeLowerError (nameVal : JsonVal) (access_token : String) :
    List String :=
  ["\n" ++ eqRow,
   "Institution: " ++ pyStr nameVal,
   "Access token: " ++ access_token,
   "",
   "Add to your .env file:",
   "  PLAID_ACCESS_TOKEN_<n>=" ++ access_token]

/-- Handler of `POST /exchange_token` (lines 140-163).  `data` is the parsed
JSON object of the request body (`request.get_json()`); `vendor` is the
oracle for `plaid_client.item_public_token_exchange` applied to the
`public_token` value of the request it is built from: `.ok acc` means the
exchange returned an `access_token` `acc`, `.error e` a raised exception
with text `e`.  The result is `none` when an exception escapes the handler
(the institution metadata is truthy but not a dict, so `.get` raises
outside the `try` block). -/
def exchange_token (data : List (String × JsonVal))
    (vendor : JsonVal → Except String String) : Option HttpResult :=
  let public_token := exchangeSentToken data
  let institution := jget data "institution" (.obj [])
  match institutionNameOf institution with
  | none => none
  | some nameVal =>
    match vendor public_token with
    | .error e => some { status := 500, body := [("error", .str e)], printed := [] }
    | .ok access_token =>
      match nameVal with
      | .str institution_name =>
        some { status := 200,
               body := [("success", .jbool true)],
               printed := successPrints institution_name access_token }
      | v =>
        -- `institution_name.lower()` raises inside the `try`: caught, 500.
        some { status := 500,
               body := [("error", .str (lowerAttrError v))],
               printed := printsBeforeLowerError v access_token }

/-! ## Schwab OAuth bootstrap script (`schwab_setup.py`)

The filesystem is modelled as the list of existing directory paths; the
vendor login flow (`schwab.auth.client_from_login_flow`) is an oracle whose
`.error e` means the call raised an exception with text `e`. -/

/-- `os.path.dirname` for POSIX paths: the prefix of `p` up to and
including the last `/`, with trailing slashes stripped unless the head is
all slashes; `""` when `p` has no slash. -/
def dirname (p : String) : String :=
  let cs := p.data
  match cs.reverse.findIdx? (· = '/') with
  | none => ""
  | some k =>
    let head := cs.take (cs.length - k)
    if head.all (· = '/') then String.mk head
    else String.mk ((head.reverse.dropWhile (· = '/')).reverse)

/-- `os.makedirs(d, exist_ok=True)` on the set of existing directories: a
no-op when `d` already exists, otherwise it adds `d` (intermediate
ancestors are not tracked; the script only ever queries the target). -/
def makedirs (fs : List String) (d : String) : List String :=
  if d ∈ fs then fs else d :: fs

/-- The four informational `print` calls before the login flow. -/
def schwabPrePrints : List String :=
  ["Starting Schwab OAuth2 flow...",
   "A browser window will open. Log in to Schwab and authorise the app.",
   "After authorising, you will be redirected to a localhost URL.",
   "Copy the full redirect URL and paste it here when prompted.\n"]

/-- The three `print` calls after a successful login flow (the second one
reproduces the mis-encoded dash characters present in the source file). -/
def schwabSuccessPrints (token_file : String) : List String :=
  ["\nSuccess! Token saved to: " ++ token_file,
   "You can now run collect.py â€” Schwab collection will use this token automatically.",
   "The token will be refreshed automatically on each collect.py run."]

/-- Everything observable about one run of `main` in `schwab_setup.py`:
the final filesystem, the `print` calls, the arguments of the login-flow
call when it was made (`client_id`, `client_secret`, `redirect_uri`,
`token_path`), and the `sys.exit` record when the run aborted. -/
structure SchwabRun where
  fs : List String
  printed : List String
  flowCalled : Option (String × String × String × String)
  exit : Option ScriptExit

/-- `main()` of `schwab_setup.py` (lines 20-60): read and strip the three
required variables, `sys.exit` on the first empty one; ensure the token
file's parent directory exists when it is non-empty; run the vendor login
flow, aborting with its exception text on failure and printing a success
message naming the token file on success. -/
def schwab_main (env : Env) (fs : List String)
    (flow : Except String Unit) : SchwabRun :=
  let client_id := pyStrip (envGetD env "SCHWAB_CLIENT_ID" "")
  let client_secret := pyStrip (envGetD env "SCHWAB_CLIENT_SECRET" "")
  let token_file := pyStrip (envGetD env "SCHWAB_TOKEN_FILE" "")
  if client_id = "" then
    { fs := fs, printed := [], flowCalled := none,
      exit := some ⟨1, "ERROR: SCHWAB_CLIENT_ID not set in .env"⟩ }
  else if client_secret = "" then
    { fs := fs, printed := [], flowCalled := none,
      exit := some ⟨1, "ERROR: SCHWAB_CLIENT_SECRET not set in .env"⟩ }
  else if token_file = "" then
    { fs := fs, printed := [], flowCalled := none,
      exit := some ⟨1, "ERROR: SCHWAB_TOKEN_FILE not set in .env"⟩ }
  else
    let token_dir := dirname token_file
    let fs1 := if token_dir ≠ "" then makedirs fs token_dir else fs
    match flow with
    | .error e =>
      { fs := fs1, printed := schwabPrePrints,
        flowCalled := some (client_id, client_secret, "https://127.0.0.1", token_file),
        exit := some ⟨1, "ERROR: OAuth flow failed: " ++ e⟩ }
    | .ok _ =>
      { fs := fs1, printed := schwabPrePrints ++ schwabSuccessPrints token_file,
        flowCalled := some (client_id, client_secret, "https://127.0.0.1", token_file),
        exit := none }

/-! ## Theorems -/

/-- Helper: a message of the shape `a ++ (n ++ b)` mentions `n`. -/
theorem mentions_append (a n b : String) : mentions (a ++ (n ++ b)) n :=
  ⟨a, b, rfl⟩

/-- Helper: a message with `n` as its final segment mentions `n`. -/
theorem mentions_suffix (a n : String) : mentions (a ++ n) n :=
  ⟨a, "", by rw [String.append_empty]⟩

/-- C1: in either script, a required configuration variable that is missing
or empty after stripping makes the script `sys.exit` with code 1 (non-zero)
and a message naming that variable, and the variable reported is the first
missing one in the source's check order (`PLAID_CLIENT_ID` before
`PLAID_SECRET`; `SCHWAB_CLIENT_ID` before `SCHWAB_CLIENT_SECRET` before
`SCHWAB_TOKEN_FILE`). -/
theorem config_check_first_missing (env : Env) (fs : List String)
    (flow : Except String Unit) :
    (pyStrip (envGetD env "PLAID_CLIENT_ID" "") = "" →
      plaid_module_init env = .error ⟨1, "ERROR: PLAID_CLIENT_ID not set in .env"⟩ ∧
      (1 : Nat) ≠ 0 ∧ mentions "ERROR: PLAID_CLIENT_ID not set in .env" "PLAID_CLIENT_ID") ∧
    (pyStrip (envGetD env "PLAID_CLIENT_ID" "") ≠ "" →
     pyStrip (envGetD env "PLAID_SECRET" "") = "" →
      plaid_module_init env = .error ⟨1, "ERROR: PLAID_SECRET not set in .env"⟩ ∧
      (1 : Nat) ≠ 0 ∧ mentions "ERROR: PLAID_SECRET not set in .env" "PLAID_SECRET") ∧
    (pyStrip (envGetD env "SCHWAB_CLIENT_ID" "") = "" →
      (schwab_main env fs flow).exit = some ⟨1, "ERROR: SCHWAB_CLIENT_ID not set in .env"⟩ ∧
      (1 : Nat) ≠ 0 ∧ mentions "ERROR: SCHWAB_CLIENT_ID not set in .env" "SCHWAB_CLIENT_ID") ∧
    (pyStrip (envGetD env "SCHWAB_CLIENT_ID" "") ≠ "" →
     pyStrip (envGetD env "SCHWAB_CLIENT_SECRET" "") = "" →
      (schwab_main env fs flow).exit = some ⟨1, "ERROR: SCHWAB_CLIENT_SECRET not set in .env"⟩ ∧
      (1 : Nat) ≠ 0 ∧ mentions "ERROR: SCHWAB_CLIENT_SECRET not set in .env" "SCHWAB_CLIENT_SECRET") ∧
    (pyStrip (envGetD env "SCHWAB_CLIENT_ID" "") ≠ "" →
     pyStrip (envGetD env "SCHWAB_CLIENT_SECRET" "") ≠ "" →
     pyStrip (envGetD env "SCHWAB_TOKEN_FILE" "") = "" →
      (schwab_main env fs flow).exit = some ⟨1, "ERROR: SCHWAB_TOKEN_FILE not set in .env"⟩ ∧
      (1 : Nat) ≠ 0 ∧ mentions "ERROR: SCHWAB_TOKEN_FILE not set in .env" "SCHWAB_TOKEN_FILE") := by
  refine ⟨fun h1 => ?_, fun h1 h2 => ?_, fun h1 => ?_, fun h1 h2 => ?_, fun h1 h2 h3 => ?_⟩
  · exact ⟨by simp [plaid_module_init, h1], one_ne_zero,
      mentions_append "ERROR: " "PLAID_CLIENT_ID" " not set in .env"⟩
  · exact ⟨by simp [plaid_module_init, h1, h2], one_ne_zero,
      mentions_append "ERROR: " "PLAID_SECRET" " not set in .env"⟩
  · exact ⟨by simp [schwab_main, h1], one_ne_zero,
      mentions_append "ERROR: " "SCHWAB_CLIENT_ID" " not set in .env"⟩
  · exact ⟨by simp [schwab_main, h1, h2], one_ne_zero,
      mentions_append "ERROR: " "SCHWAB_CLIENT_SECRET" " not set in .env"⟩
  · exact ⟨by simp [schwab_main, h1, h2, h3], one_ne_zero,
      mentions_append "ERROR: " "SCHWAB_TOKEN_FILE" " not set in .env"⟩

/-- Witness for C1: a fully empty environment triggers the first plaid and
schwab checks; environments with exactly the earlier variables set trigger
each later check. -/
theorem config_check_first_missing_witness :
    (plaid_module_init (fun _ => none) = .error ⟨1, "ERROR: PLAID_CLIENT_ID not set in .env"⟩) ∧
    (plaid_module_init (fun n => if n = "PLAID_CLIENT_ID" then some "id" else none) =
      .error ⟨1, "ERROR: PLAID_SECRET not set in .env"⟩) ∧
    ((schwab_main (fun _ => none) [] (.ok ())).exit =
      some ⟨1, "ERROR: SCHWAB_CLIENT_ID not set in .env"⟩) ∧
    ((schwab_main (fun n => if n = "SCHWAB_CLIENT_ID" then some "id" else none) [] (.ok ())).exit =
      some ⟨1, "ERROR: SCHWAB_CLIENT_SECRET not set in .env"⟩) ∧
    ((schwab_main (fun n => if n = "SCHWAB_TOKEN_FILE" then none else some "v") [] (.ok ())).exit =
      some ⟨1, "ERROR: SCHWAB_TOKEN_FILE not set in .env"⟩) :=
  ⟨((config_check_first_missing (fun _ => none) [] (.ok ())).1 (by decide)).1,
   ((config_check_first_missing (fun n => if n = "PLAID_CLIENT_ID" then some "id" else none)
      [] (.ok ())).2.1 (by decide) (by decide)).1,
   ((config_check_first_missing (fun _ => none) [] (.ok ())).2.2.1 (by decide)).1,
   ((config_check_first_missing (fun n => if n = "SCHWAB_CLIENT_ID" then some "id" else none)
      [] (.ok ())).2.2.2.1 (by decide) (by decide)).1,
   ((config_check_first_missing (fun n => if n = "SCHWAB_TOKEN_FILE" then none else some "v")
      [] (.ok ())).2.2.2.2 (by decide) (by decide) (by decide)).1⟩

/-- C3: `POST /create_link_token` returns HTTP 200 with the vendor's token
string under the `link_token` key when the vendor call succeeds, and HTTP
500 with an `error` field holding the exception text when it raises. -/
theorem create_link_token_outcomes (httpReq : List (String × JsonVal))
    (vendor : LinkTokenCreateRequest → Except String String) :
    (∀ tok, vendor (builtLinkRequest httpReq) = .ok tok →
      create_link_token httpReq vendor =
        ⟨200, [("link_token", .str tok)], []⟩) ∧
    (∀ e, vendor (builtLinkRequest httpReq) = .error e →
      create_link_token httpReq vendor =
        ⟨500, [("error", .str e)], []⟩) := by
  constructor
  · intro tok h
    simp [create_link_token, h]
  · intro e h
    simp [create_link_token, h]

/-- Witness for C3 at a concrete request and both vendor outcomes. -/
theorem create_link_token_outcomes_witness :
    create_link_token [] (fun _ => .ok "lt-123") =
      ⟨200, [("link_token", .str "lt-123")], []⟩ ∧
    create_link_token [] (fun _ => .error "boom") =
      ⟨500, [("error", .str "boom")], []⟩ :=
  ⟨(create_link_token_outcomes [] (fun _ => .ok "lt-123")).1 "lt-123" rfl,
   (create_link_token_outcomes [] (fun _ => .error "boom")).2 "boom" rfl⟩

/-- C4: `PLAID_ENV` selects the vendor environment case-insensitively
(`sandbox`/`development`/`production` map to the environments of the same
name after `.lower()`), and an unset `PLAID_ENV` yields `Production`. -/
theorem plaid_env_selection (env : Env) :
    (env "PLAID_ENV" = none → plaid_host env = .Production) ∧
    (∀ s, env "PLAID_ENV" = some s →
      (pyLower s = "sandbox" → plaid_host env = .Sandbox) ∧
      (pyLower s = "development" → plaid_host env = .Development) ∧
      (pyLower s = "production" → plaid_host env = .Production)) := by
  constructor
  · intro h
    simp [plaid_host, plaid_env_name, envGetD, h]
    decide
  · intro s h
    refine ⟨fun hl => ?_, fun hl => ?_, fun hl => ?_⟩ <;>
      · simp [plaid_host, plaid_env_name, envGetD, h, hl, env_map]
        try decide

/-- Witness for C4: unset, upper-case `SANDBOX`, mixed-case `Development`
and `pRoDuCtIoN` all map as claimed. -/
theorem plaid_env_selection_witness :
    plaid_host (fun _ => none) = .Production ∧
    plaid_host (fun n => if n = "PLAID_ENV" then some "SANDBOX" else none) = .Sandbox ∧
    plaid_host (fun n => if n = "PLAID_ENV" then some "Development" else none) = .Development ∧
    plaid_host (fun n => if n = "PLAID_ENV" then some "pRoDuCtIoN" else none) = .Production :=
  ⟨(plaid_env_selection (fun _ => none)).1 rfl,
   ((plaid_env_selection _).2 "SANDBOX" rfl).1 (by decide),
   ((plaid_env_selection _).2 "Development" rfl).2.1 (by decide),
   ((plaid_env_selection _).2 "pRoDuCtIoN" rfl).2.2 (by decide)⟩

/-- C9: the link-token-creation request is the same fixed record for every
incoming HTTP request: products `[transactions, investments]`, client name
`Homelab Finance Monitor`, country code `US`, language `en`, synthetic user
id `homelab-user`; consequently the handler's behaviour does not depend on
the incoming request at all. -/
theorem link_request_fixed (httpReq httpReq2 : List (String × JsonVal)) :
    builtLinkRequest httpReq =
      { products := ["transactions", "investments"],
        client_name := "Homelab Finance Monitor",
        country_codes := ["US"],
        language := "en",
        client_user_id := "homelab-user" } ∧
    builtLinkRequest httpReq = builtLinkRequest httpReq2 ∧
    (∀ vendor, create_link_token httpReq vendor = create_link_token httpReq2 vendor) :=
  ⟨rfl, rfl, fun _ => rfl⟩

/-- C5: with complete configuration, before the login flow runs the script
ensures the token file's parent directory exists: a non-empty `dirname` is
in the final filesystem, it is added exactly when absent, an already
present directory leaves the filesystem unchanged, and an empty `dirname`
(plain file name) skips the `makedirs` call entirely.  The final
filesystem does not depend on the flow outcome, which shows the directory
step precedes the flow; the flow is invoked (`flowCalled.isSome`). -/
theorem schwab_parent_dir_exists (env : Env) (fs : List String)
    (flow : Except String Unit)
    (hid : pyStrip (envGetD env "SCHWAB_CLIENT_ID" "") ≠ "")
    (hsec : pyStrip (envGetD env "SCHWAB_CLIENT_SECRET" "") ≠ "")
    (htf : pyStrip (envGetD env "SCHWAB_TOKEN_FILE" "") ≠ "") :
    (dirname (pyStrip (envGetD env "SCHWAB_TOKEN_FILE" "")) ≠ "" →
      dirname (pyStrip (envGetD env "SCHWAB_TOKEN_FILE" "")) ∈ (schwab_main env fs flow).fs ∧
      (dirname (pyStrip (envGetD env "SCHWAB_TOKEN_FILE" "")) ∈ fs →
        (schwab_main env fs flow).fs = fs) ∧
      (dirname (pyStrip (envGetD env "SCHWAB_TOKEN_FILE" "")) ∉ fs →
        (schwab_main env fs flow).fs =
          dirname (pyStrip (envGetD env "SCHWAB_TOKEN_FILE" "")) :: fs)) ∧
    (dirname (pyStrip (envGetD env "SCHWAB_TOKEN_FILE" "")) = "" →
      (schwab_main env fs flow).fs = fs) ∧
    (schwab_main env fs flow).fs = (schwab_main env fs (.ok ())).fs ∧
    ((schwab_main env fs flow).flowCalled).isSome = true := by
  have hfs : ∀ fl : Except String Unit, (schwab_main env fs fl).fs =
      if dirname (pyStrip (envGetD env "SCHWAB_TOKEN_FILE" "")) ≠ "" then
        makedirs fs (dirname (pyStrip (envGetD env "SCHWAB_TOKEN_FILE" ""))) else fs := by
    intro fl
    cases fl <;> simp [schwab_main, hid, hsec, htf]
  refine ⟨fun hd => ⟨?_, fun hmem => ?_, fun hmem => ?_⟩, fun hd => ?_, ?_, ?_⟩
  · rw [hfs, if_pos hd]
    by_cases hmem : dirname (pyStrip (envGetD env "SCHWAB_TOKEN_FILE" "")) ∈ fs <;>
      simp [makedirs, hmem]
  · rw [hfs, if_pos hd]
    simp [makedirs, hmem]
  · rw [hfs, if_pos hd]
    simp [makedirs, hmem]
  · rw [hfs, if_neg (by simp [hd])]
  · rw [hfs, hfs]
  · cases flow <;> simp [schwab_main, hid, hsec, htf]

/-- Witness for C5: with `SCHWAB_TOKEN_FILE=/data/tok.json`, the parent
`/data` is created when absent and an existing filesystem is unchanged. -/
theorem schwab_parent_dir_exists_witness :
    dirname "/data/tok.json" ≠ "" ∧
    "/data" ∈ (schwab_main
      (fun n => if n = "SCHWAB_CLIENT_ID" then some "i"
        else if n = "SCHWAB_CLIENT_SECRET" then some "s"
        else if n = "SCHWAB_TOKEN_FILE" then some "/data/tok.json" else none)
      [] (.ok ())).fs ∧
    (schwab_main
      (fun n => if n = "SCHWAB_CLIENT_ID" then some "i"
        else if n = "SCHWAB_CLIENT_SECRET" then some "s"
        else if n = "SCHWAB_TOKEN_FILE" then some "/data/tok.json" else none)
      ["/data"] (.ok ())).fs = ["/data"] := by
  have h := schwab_parent_dir_exists
    (fun n => if n = "SCHWAB_CLIENT_ID" then some "i"
      else if n = "SCHWAB_CLIENT_SECRET" then some "s"
      else if n = "SCHWAB_TOKEN_FILE" then some "/data/tok.json" else none)
    [] (.ok ()) (by decide) (by decide) (by decide)
  have h2 := schwab_parent_dir_exists
    (fun n => if n = "SCHWAB_CLIENT_ID" then some "i"
      else if n = "SCHWAB_CLIENT_SECRET" then some "s"
      else if n = "SCHWAB_TOKEN_FILE" then some "/data/tok.json" else none)
    ["/data"] (.ok ()) (by decide) (by decide) (by decide)
  have hd : dirname (pyStrip (envGetD
      (fun n => if n = "SCHWAB_CLIENT_ID" then some "i"
        else if n = "SCHWAB_CLIENT_SECRET" then some "s"
        else if n = "SCHWAB_TOKEN_FILE" then some "/data/tok.json" else none)
      "SCHWAB_TOKEN_FILE" "")) = "/data" := by decide
  refine ⟨by decide, ?_, ?_⟩
  · exact hd ▸ (h.1 (by decide)).1
  · exact (h2.1 (by decide)).2.1 (by rw [hd]; simp)

/-- C6: with complete configuration, a login flow that raises aborts the
script via `sys.exit` with code 1 and a message containing the exception
text, while a successful flow completes without exiting and prints a
success message naming the configured token file path. -/
theorem schwab_flow_outcome (env : Env) (fs : List String)
    (hid : pyStrip (envGetD env "SCHWAB_CLIENT_ID" "") ≠ "")
    (hsec : pyStrip (envGetD env "SCHWAB_CLIENT_SECRET" "") ≠ "")
    (htf : pyStrip (envGetD env "SCHWAB_TOKEN_FILE" "") ≠ "") :
    (∀ e, (schwab_main env fs (.error e)).exit =
        some ⟨1, "ERROR: OAuth flow failed: " ++ e⟩ ∧
      (1 : Nat) ≠ 0 ∧
      mentions ("ERROR: OAuth flow failed: " ++ e) e) ∧
    ((schwab_main env fs (.ok ())).exit = none ∧
     ("\nSuccess! Token saved to: " ++ pyStrip (envGetD env "SCHWAB_TOKEN_FILE" "")) ∈
        (schwab_main env fs (.ok ())).printed ∧
     mentions ("\nSuccess! Token saved to: " ++ pyStrip (envGetD env "SCHWAB_TOKEN_FILE" ""))
        (pyStrip (envGetD env "SCHWAB_TOKEN_FILE" ""))) := by
  refine ⟨fun e => ⟨?_, one_ne_zero, mentions_suffix _ e⟩, ?_, ?_, mentions_suffix _ _⟩
  · simp [schwab_main, hid, hsec, htf]
  · simp [schwab_main, hid, hsec, htf]
  · simp [schwab_main, hid, hsec, htf, schwabPrePrints, schwabSuccessPrints]

/-- Witness for C6 at a concrete complete environment, for a raising and a
succeeding flow. -/
theorem schwab_flow_outcome_witness :
    (schwab_main
      (fun n => if n = "SCHWAB_CLIENT_ID" then some "i"
        else if n = "SCHWAB_CLIENT_SECRET" then some "s"
        else if n = "SCHWAB_TOKEN_FILE" then some "/data/tok.json" else none)
      [] (.error "denied")).exit =
      some ⟨1, "ERROR: OAuth flow failed: denied"⟩ ∧
    (schwab_main
      (fun n => if n = "SCHWAB_CLIENT_ID" then some "i"
        else if n = "SCHWAB_CLIENT_SECRET" then some "s"
        else if n = "SCHWAB_TOKEN_FILE" then some "/data/tok.json" else none)
      [] (.ok ())).exit = none := by
  have h := schwab_flow_outcome
    (fun n => if n = "SCHWAB_CLIENT_ID" then some "i"
      else if n = "SCHWAB_CLIENT_SECRET" then some "s"
      else if n = "SCHWAB_TOKEN_FILE" then some "/data/tok.json" else none)
    [] (by decide) (by decide) (by decide)
  exact ⟨(h.1 "denied").1, h.2.1⟩

/-- C7: when a required configuration value is missing, no vendor call is
ever made.  For the plaid server, module initialisation aborts so the
vendor client (the only route to the network) is never constructed and no
handler ever runs; for the OAuth script, the run aborts with the login
flow never called. -/
theorem no_vendor_call_when_config_missing (env : Env) (fs : List String)
    (flow : Except String Unit) :
    ((pyStrip (envGetD env "PLAID_CLIENT_ID" "") = "" ∨
      pyStrip (envGetD env "PLAID_SECRET" "") = "") →
      ∃ ex, plaid_module_init env = .error ex) ∧
    ((pyStrip (envGetD env "SCHWAB_CLIENT_ID" "") = "" ∨
      pyStrip (envGetD env "SCHWAB_CLIENT_SECRET" "") = "" ∨
      pyStrip (envGetD env "SCHWAB_TOKEN_FILE" "") = "") →
      (schwab_main env fs flow).flowCalled = none ∧
      ((schwab_main env fs flow).exit).isSome = true) := by
  constructor
  · rintro (h1 | h2)
    · exact ⟨⟨1, "ERROR: PLAID_CLIENT_ID not set in .env"⟩, by simp [plaid_module_init, h1]⟩
    · by_cases h1 : pyStrip (envGetD env "PLAID_CLIENT_ID" "") = ""
      · exact ⟨⟨1, "ERROR: PLAID_CLIENT_ID not set in .env"⟩, by simp [plaid_module_init, h1]⟩
      · exact ⟨⟨1, "ERROR: PLAID_SECRET not set in .env"⟩, by simp [plaid_module_init, h1, h2]⟩
  · rintro (h1 | h2 | h3)
    · simp [schwab_main, h1]
    · by_cases h1 : pyStrip (envGetD env "SCHWAB_CLIENT_ID" "") = "" <;>
        simp [schwab_main, h1, h2]
    · by_cases h1 : pyStrip (envGetD env "SCHWAB_CLIENT_ID" "") = ""
      · simp [schwab_main, h1]
      · by_cases h2 : pyStrip (envGetD env "SCHWAB_CLIENT_SECRET" "") = "" <;>
          simp [schwab_main, h1, h2, h3]

/-- Witness for C7: with only the secrets missing, the plaid module aborts
and the schwab login flow is never invoked. -/
theorem no_vendor_call_when_config_missing_witness :
    (∃ ex, plaid_module_init
      (fun n => if n = "PLAID_CLIENT_ID" then some "id" else none) = .error ex) ∧
    (schwab_main (fun _ => none) [] (.ok ())).flowCalled = none := by
  have h := no_vendor_call_when_config_missing
    (fun n => if n = "PLAID_CLIENT_ID" then some "id" else none) [] (.ok ())
  have h2 := no_vendor_call_when_config_missing (fun _ => none) [] (.ok ())
  exact ⟨h.1 (Or.inr (by decide)), (h2.2 (Or.inl (by decide))).1⟩

/-- C2 counterexample: for the POST body
`{"public_token": "pt", "institution": {"name": true}}` and a vendor
exchange that succeeds returning access token `"acc"`, the handler answers
HTTP 500, not 200 with `{"success": true}`: the success path evaluates
`institution_name.lower()` on the non-string name inside the `try` block,
which raises and is converted to an error response. -/
theorem exchange_token_200_counterexample :
    (exchange_token [("public_token", .str "pt"),
                     ("institution", .obj [("name", .jbool true)])]
       (fun _ => .ok "acc")).map HttpResult.status = some 500 ∧
    (exchange_token [("public_token", .str "pt"),
                     ("institution", .obj [("name", .jbool true)])]
       (fun _ => .ok "acc")).map HttpResult.status ≠ some 200 :=
  ⟨rfl, by decide⟩

/-- C2 (amended): whenever the derived institution name is a string — which
holds for every body whose institution metadata is absent, falsy, or an
object whose `name` field is absent or a string — a successful vendor
exchange yields HTTP 200 with body `{"success": true}` and prints the
institution name and the access token; whenever the vendor exchange call
raises, the handler yields HTTP 500 with an `error` field holding the
exception text. -/
theorem exchange_token_outcomes (data : List (String × JsonVal))
    (vendor : JsonVal → Except String String) :
    (∀ nm acc, institutionNameOf (jget data "institution" (.obj [])) = some (.str nm) →
      vendor (exchangeSentToken data) = .ok acc →
      exchange_token data vendor =
        some ⟨200, [("success", .jbool true)], successPrints nm acc⟩ ∧
      ("Institution: " ++ nm) ∈ successPrints nm acc ∧
      ("Access token: " ++ acc) ∈ successPrints nm acc) ∧
    (∀ nv e, institutionNameOf (jget data "institution" (.obj [])) = some nv →
      vendor (exchangeSentToken data) = .error e →
      exchange_token data vendor = some ⟨500, [("error", .str e)], []⟩) := by
  constructor
  · intro nm acc h1 h2
    refine ⟨?_, by simp [successPrints], by simp [successPrints]⟩
    simp [exchange_token, h1, h2]
  · intro nv e h1 h2
    simp [exchange_token, h1, h2]

/-- Witness for the amended C2: a body with a string institution name and a
succeeding exchange gives 200/success; a raising exchange gives 500 with
the exception text. -/
theorem exchange_token_outcomes_witness :
    exchange_token [("public_token", .str "pt"),
                    ("institution", .obj [("name", .str "Chase")])]
      (fun _ => .ok "acc") =
      some ⟨200, [("success", .jbool true)], successPrints "Chase" "acc"⟩ ∧
    exchange_token [("public_token", .str "pt")] (fun _ => .error "boom") =
      some ⟨500, [("error", .str "boom")], []⟩ :=
  ⟨((exchange_token_outcomes
      [("public_token", .str "pt"), ("institution", .obj [("name", .str "Chase")])]
      (fun _ => .ok "acc")).1 "Chase" "acc" rfl rfl).1,
   (exchange_token_outcomes [("public_token", .str "pt")]
      (fun _ => .error "boom")).2 (.str "unknown") "boom" rfl rfl⟩

/-- C8: token strings are never transformed: the `public_token` value of
the request body is the exact value handed to the vendor exchange call,
and the access token returned by the vendor appears character for
character in the printed output. -/
theorem token_passthrough (data : List (String × JsonVal)) (v : JsonVal)
    (nm acc : String)
    (hpt : data.lookup "public_token" = some v)
    (hnm : institutionNameOf (jget data "institution" (.obj [])) = some (.str nm)) :
    exchangeSentToken data = v ∧
    ∃ r, exchange_token data (fun _ => .ok acc) = some r ∧
      ("Access token: " ++ acc) ∈ r.printed := by
  refine ⟨by simp [exchangeSentToken, jget, hpt], ?_⟩
  refine ⟨⟨200, [("success", .jbool true)], successPrints nm acc⟩, ?_,
    by simp [successPrints]⟩
  simp [exchange_token, hnm]

/-- Witness for C8 at a concrete body and tokens. -/
theorem token_passthrough_witness :
    exchangeSentToken [("public_token", .str "public-tok")] = .str "public-tok" ∧
    ∃ r, exchange_token [("public_token", .str "public-tok")]
        (fun _ => .ok "access-tok") = some r ∧
      ("Access token: " ++ "access-tok") ∈ r.printed :=
  token_passthrough [("public_token", .str "public-tok")] (.str "public-tok")
    "unknown" "access-tok" rfl rfl

/-- C10: a body whose `institution` key is missing, `null`, or an object
without a `name` key does not make the handler fail: the institution name
defaults to `"unknown"` and a successful vendor exchange still returns
HTTP 200 with `{"success": true}`. -/
theorem exchange_token_default_institution (data : List (String × JsonVal))
    (vendor : JsonVal → Except String String) (acc : String)
    (hinst : data.lookup "institution" = none ∨
      data.lookup "institution" = some .null ∨
      ∃ l, data.lookup "institution" = some (.obj l) ∧ l.lookup "name" = none)
    (hok : vendor (exchangeSentToken data) = .ok acc) :
    exchange_token data vendor =
      some ⟨200, [("success", .jbool true)], successPrints "unknown" acc⟩ := by
  have hnm : institutionNameOf (jget data "institution" (.obj [])) =
      some (.str "unknown") := by
    rcases hinst with h | h | ⟨l, h, hl⟩
    · simp [jget, h, institutionNameOf, JsonVal.truthy]
    · simp [jget, h, institutionNameOf, JsonVal.truthy]
    · cases l with
      | nil => simp [jget, h, institutionNameOf, JsonVal.truthy]
      | cons kv rest => simp [jget, h, institutionNameOf, JsonVal.truthy, hl]
  simp [exchange_token, hnm, hok]

/-- Witness for C10: missing, `null` and name-less-object institution
metadata all succeed with the `"unknown"` institution name. -/
theorem exchange_token_default_institution_witness :
    exchange_token [("public_token", .str "pt")] (fun _ => .ok "acc") =
      some ⟨200, [("success", .jbool true)], successPrints "unknown" "acc"⟩ ∧
    exchange_token [("public_token", .str "pt"), ("institution", .null)]
      (fun _ => .ok "acc") =
      some ⟨200, [("success", .jbool true)], successPrints "unknown" "acc"⟩ ∧
    exchange_token [("public_token", .str "pt"), ("institution", .obj [("x", .str "y")])]
      (fun _ => .ok "acc") =
      some ⟨200, [("success", .jbool true)], successPrints "unknown" "acc"⟩ :=
  ⟨exchange_token_default_institution _ _ "acc" (Or.inl rfl) rfl,
   exchange_token_default_institution _ _ "acc" (Or.inr (Or.inl rfl)) rfl,
   exchange_token_default_institution _ _ "acc"
     (Or.inr (Or.inr ⟨[("x", .str "y")], rfl, rfl⟩)) rfl⟩
